import Mathlib

/-!
Verification development for the FlareDNS repository.

The repository is a small dynamic-DNS updater. The files modelled here are
flaredns.py (the main program), update-dyndns.py (a legacy variant of the
same loop) and examples/CopyDNS.py (a variant whose address source queries a
specific nameserver). Python runtime values that flow through the relevant
code are modelled by the inductive type PyVal; Python exceptions by PyErr;
fallible code returns Except PyErr. Machine-level address arithmetic is
modelled on Nat with explicit bounds at 2 ^ 128 exactly where the code works
on 16-byte packed representations.
-/

namespace FlareDNS

/-- Decidable equality on fallible results, for concrete evaluation. -/
instance {ε α : Type} [DecidableEq ε] [DecidableEq α] : DecidableEq (Except ε α)
  | Except.ok a, Except.ok b =>
      if h : a = b then isTrue (by rw [h]) else isFalse (by intro hc; cases hc; exact h rfl)
  | Except.error a, Except.error b =>
      if h : a = b then isTrue (by rw [h]) else isFalse (by intro hc; cases hc; exact h rfl)
  | Except.ok _, Except.error _ => isFalse (by intro hc; cases hc)
  | Except.error _, Except.ok _ => isFalse (by intro hc; cases hc)

/-- Python exception classes that the modelled code can raise. -/
inductive PyErr
  | attributeError
  | valueError
  | indexError
  | exceptionRaised
  | readTimeout
  | dnsNXDomain
  | dnsNoAnswer
  | dnsTimeout
  | dnsNoNameservers
  deriving Repr, DecidableEq

/-- A Python runtime value as it flows through the update loop: the
variable current_ipv6 in flaredns.py can hold None, a str (the body
returned by the echo service) or an ipaddress.IPv6Address object.
IPv4Address objects are included to model width-mismatched operands of the
bitwise helpers. The Nat payloads of addr4 and addr6 are the integers of
the packed big-endian byte representations. -/
inductive PyVal
  | pyNone
  | str (s : String)
  | addr4 (v : Nat)
  | addr6 (v : Nat)
  deriving Repr, DecidableEq, BEq

/-- Python inequality between the modelled values: values of different
types are always unequal, addresses compare by integer value, strings by
string equality. -/
def pyNe : PyVal → PyVal → Bool
  | .str a, .str b => a != b
  | .addr4 a, .addr4 b => a != b
  | .addr6 a, .addr6 b => a != b
  | .pyNone, .pyNone => false
  | _, _ => true

/-- Attribute access addr.packed followed by int.from_bytes: defined on
address objects only, raising AttributeError on str and None. The stored
integer is reduced to the width of the packed form (4 bytes for
IPv4Address, 16 bytes for IPv6Address). -/
def packedInt : PyVal → Except PyErr Nat
  | .addr4 v => Except.ok (v % 2 ^ 32)
  | .addr6 v => Except.ok (v % 2 ^ 128)
  | _ => Except.error PyErr.attributeError

/-- flaredns.py line 15: AND of the packed integers of the two operands,
result wrapped as a 16-byte IPv6Address. No family or width check is
performed by the source. -/
def bitwise_and_ipv6 (addr1 addr2 : PyVal) : Except PyErr PyVal := do
  let a ← packedInt addr1
  let b ← packedInt addr2
  Except.ok (PyVal.addr6 (a &&& b))

/-- flaredns.py line 19: OR of the packed integers. -/
def bitwise_or_ipv6 (addr1 addr2 : PyVal) : Except PyErr PyVal := do
  let a ← packedInt addr1
  let b ← packedInt addr2
  Except.ok (PyVal.addr6 (a ||| b))

/-- flaredns.py line 23: XOR of the packed integers. -/
def bitwise_xor_ipv6 (addr1 addr2 : PyVal) : Except PyErr PyVal := do
  let a ← packedInt addr1
  let b ← packedInt addr2
  Except.ok (PyVal.addr6 (a ^^^ b))

/-- flaredns.py line 27: bytewise complement of the packed form. On a
16-byte operand this is 2 ^ 128 - 1 - v; a 4-byte IPv4 operand yields a
4-byte result that the IPv6Address constructor rejects with ValueError. -/
def bitwise_not_ipv6 (addr : PyVal) : Except PyErr PyVal :=
  match addr with
  | .addr6 v => Except.ok (PyVal.addr6 (2 ^ 128 - 1 - v % 2 ^ 128))
  | .addr4 _ => Except.error PyErr.valueError
  | _ => Except.error PyErr.attributeError

/-- The netmask_length argument of replace_ipv6_host_part as passed at the
two call sites: the default int 64, or the string split off the
--ipv6-host option. -/
inductive PfxArg
  | ofNat (n : Nat)
  | ofStr (s : String)
  deriving Repr, DecidableEq

/-- Decimal reading of a prefix-length string: digits only, as the
ipaddress module requires. -/
def decNatOfChars (l : List Char) : Option Nat :=
  if l.isEmpty then none
  else
    l.foldl
      (fun acc c =>
        match acc with
        | some a =>
            if 48 ≤ c.toNat ∧ c.toNat ≤ 57 then some (a * 10 + (c.toNat - 48)) else none
        | none => none)
      (some 0)

/-- The prefix validation done by ipaddress.IPv6Network applied to the
f-string rendering of the netmask_length argument: a nonnegative decimal
integer of at most 128, anything else raises ValueError. -/
def parsePfxArg : PfxArg → Except PyErr Nat
  | .ofNat n => if n ≤ 128 then Except.ok n else Except.error PyErr.valueError
  | .ofStr s =>
      match decNatOfChars s.toList with
      | some n => if n ≤ 128 then Except.ok n else Except.error PyErr.valueError
      | none => Except.error PyErr.valueError

/-- The integer value of IPv6Network receiving the given length: the
hostmask has 128 - n trailing one-bits. -/
def hostmaskVal (n : Nat) : Nat := 2 ^ (128 - n) - 1

/-- The netmask of the same network: n leading one-bits in a 128-bit
value. -/
def netmaskVal (n : Nat) : Nat := 2 ^ (128 - n) * (2 ^ n - 1)

/-- flaredns.py line 32: keep the leading netmask_length bits of net_addr
and the remaining bits of host_addr. The masks are computed first, then
the two AND operations, then the OR. -/
def replace_ipv6_host_part (net_addr host_addr : PyVal) (netmask_length : PfxArg) :
    Except PyErr PyVal := do
  let n ← parsePfxArg netmask_length
  let net_part ← bitwise_and_ipv6 net_addr (PyVal.addr6 (netmaskVal n))
  let host_part ← bitwise_and_ipv6 host_addr (PyVal.addr6 (hostmaskVal n))
  bitwise_or_ipv6 net_part host_part

/-- Pure 128-bit core of replace_ipv6_host_part on in-range operands. -/
def mergeHostPure (net host n : Nat) : Nat :=
  (net &&& netmaskVal n) ||| (host &&& hostmaskVal n)

/-- Value of a hexadecimal digit character, if any. -/
def hexDigitVal (c : Char) : Option Nat :=
  if 48 ≤ c.toNat ∧ c.toNat ≤ 57 then some (c.toNat - 48)
  else if 97 ≤ c.toNat ∧ c.toNat ≤ 102 then some (c.toNat - 87)
  else if 65 ≤ c.toNat ∧ c.toNat ≤ 70 then some (c.toNat - 55)
  else none

/-- One colon-separated group of an IPv6 literal: one to four hex digits. -/
def parseHexGroup (g : List Char) : Option Nat :=
  if g.length = 0 ∨ 4 < g.length then none
  else
    g.foldl
      (fun acc c =>
        match acc, hexDigitVal c with
        | some a, some d => some (a * 16 + d)
        | _, _ => none)
      (some 0)

/-- Parse every colon-separated group, failing if any group fails. -/
def mapHexGroups : List (List Char) → Option (List Nat)
  | [] => some []
  | g :: gs =>
      match parseHexGroup g, mapHexGroups gs with
      | some v, some vs => some (v :: vs)
      | _, _ => none

/-- Big-endian accumulation of 16-bit groups. -/
def groupsVal (gs : List Nat) : Nat := gs.foldl (fun a g => a * 65536 + g) 0

/-- Split a character list at every single colon. -/
def splitOnColon : List Char → List (List Char)
  | [] => [[]]
  | x :: xs =>
      match splitOnColon xs with
      | [] => [[x]]
      | y :: ys => if x = ':' then [] :: y :: ys else (x :: y) :: ys

/-- Split a character list at every non-overlapping double colon, scanning
left to right. -/
def splitDoubleColon : List Char → List (List Char)
  | [] => [[]]
  | [x] => [[x]]
  | a :: b :: xs =>
      if a = ':' ∧ b = ':' then [] :: splitDoubleColon xs
      else
        match splitDoubleColon (b :: xs) with
        | [] => [[a]]
        | y :: ys => (a :: y) :: ys

/-- The textual parsing performed by the external ipaddress.IPv6Address
constructor, restricted to the plain hex-group forms used by this
repository (an optional single :: abbreviation, no embedded IPv4 and no
zone id); invalid text raises ValueError. -/
def ipv6_from_string (s : String) : Except PyErr Nat :=
  match splitDoubleColon s.toList with
  | [whole] =>
      let parts := splitOnColon whole
      if parts.length = 8 then
        match mapHexGroups parts with
        | some gs => Except.ok (groupsVal gs)
        | none => Except.error PyErr.valueError
      else Except.error PyErr.valueError
  | [l, r] =>
      let lparts := if l.isEmpty then [] else splitOnColon l
      let rparts := if r.isEmpty then [] else splitOnColon r
      if lparts.length + rparts.length ≤ 7 then
        match mapHexGroups lparts, mapHexGroups rparts with
        | some lg, some rg =>
            Except.ok (groupsVal lg * 2 ^ (16 * (8 - lparts.length)) + groupsVal rg)
        | _, _ => Except.error PyErr.valueError
      else Except.error PyErr.valueError
  | _ => Except.error PyErr.valueError

/-- Split a character list at the first slash, if any. -/
def partAtSlash : List Char → Option (List Char × List Char)
  | [] => none
  | x :: xs =>
      if x = '/' then some ([], xs)
      else
        match partAtSlash xs with
        | none => none
        | some (a, b) => some (x :: a, b)

/-- Python str.partition at the first "/": returns the text before, the
separator if found, and the text after. -/
def partitionSlash (s : String) : String × String × String :=
  match partAtSlash s.toList with
  | none => (s, "", "")
  | some (a, b) => (String.mk a, "/", String.mk b)

/-- A DNS record as returned by the provider: the content field plus the
attributes the engine never touches. The content is kept as a PyVal
because the update loop assigns the current-address variable into it. -/
structure DNSRecord where
  id : String
  name : String
  rtype : String
  content : PyVal
  ttl : Nat
  proxied : Bool
  extra : List (String × String)
  deriving Repr, DecidableEq

/-- The provider state visible to the engine: the record lists returned
for the A and AAAA queries on the target hostname. -/
structure RecordStore where
  aRecords : List DNSRecord
  aaaaRecords : List DNSRecord
  deriving Repr, DecidableEq

/-- Indexing [0] into the list returned by the record query: raises
IndexError when no record of the requested type exists. -/
def recordsGet : List DNSRecord → Except PyErr DNSRecord
  | [] => Except.error PyErr.indexError
  | r :: _ => Except.ok r

/-- Provider effect of a successful put: the record with the same id is
replaced by the uploaded body. -/
def putById (recs : List DNSRecord) (r : DNSRecord) : List DNSRecord :=
  recs.map fun x => if x.id = r.id then r else x

/-- Apply an optional put to a record list. -/
def putByIdOpt (recs : List DNSRecord) : Option DNSRecord → List DNSRecord
  | none => recs
  | some r => putById recs r

/-- Outcomes of the requests.get call against the echo service, as they
relate to the except clause in the source: ConnectionError (including
connect timeouts) is the class the source catches; ReadTimeout is a
requests Timeout that is not a ConnectionError. -/
inductive ReqFailure
  | connectionError
  | readTimeout
  deriving Repr, DecidableEq

/-- flaredns.py line 43: return the response body, or None after catching
requests.exceptions.ConnectionError; any other exception of the request,
such as a read timeout, propagates to the caller. -/
def get_current_ipv4 (fetch : Except ReqFailure String) : Except PyErr (Option String) :=
  match fetch with
  | Except.ok body => Except.ok (some body)
  | Except.error ReqFailure.connectionError => Except.ok none
  | Except.error ReqFailure.readTimeout => Except.error PyErr.readTimeout

/-- flaredns.py line 50: identical handling for the IPv6 echo endpoint. -/
def get_current_ipv6 (fetch : Except ReqFailure String) : Except PyErr (Option String) :=
  match fetch with
  | Except.ok body => Except.ok (some body)
  | Except.error ReqFailure.connectionError => Except.ok none
  | Except.error ReqFailure.readTimeout => Except.error PyErr.readTimeout

/-- Outcome of dns.resolver.Resolver.resolve in examples/CopyDNS.py. -/
inductive DnsResolveOutcome
  | answers (l : List String)
  | nxdomain
  | noAnswer
  | lifetimeTimeout
  | noNameservers
  deriving Repr, DecidableEq

/-- CopyDNS.py line 32: take the first answer of the query, None when the
answer set is empty; resolver exceptions propagate. -/
def dns_query_specific_nameserver (outcome : DnsResolveOutcome) :
    Except PyErr (Option String) :=
  match outcome with
  | .answers [] => Except.ok none
  | .answers (a :: _) => Except.ok (some a)
  | .nxdomain => Except.error PyErr.dnsNXDomain
  | .noAnswer => Except.error PyErr.dnsNoAnswer
  | .lifetimeTimeout => Except.error PyErr.dnsTimeout
  | .noNameservers => Except.error PyErr.dnsNoNameservers

/-- CopyDNS.py line 49: catch NXDOMAIN and NoAnswer (falling through to an
implicit None); every other resolver exception escapes. -/
def copydns_get_current_ipv4 (outcome : DnsResolveOutcome) :
    Except PyErr (Option String) :=
  match dns_query_specific_nameserver outcome with
  | Except.ok v => Except.ok v
  | Except.error PyErr.dnsNXDomain => Except.ok none
  | Except.error PyErr.dnsNoAnswer => Except.ok none
  | Except.error e => Except.error e

/-- CopyDNS.py line 55: same handling for the AAAA query. -/
def copydns_get_current_ipv6 (outcome : DnsResolveOutcome) :
    Except PyErr (Option String) :=
  match dns_query_specific_nameserver outcome with
  | Except.ok v => Except.ok v
  | Except.error PyErr.dnsNXDomain => Except.ok none
  | Except.error PyErr.dnsNoAnswer => Except.ok none
  | Except.error e => Except.error e

/-- flaredns.py line 58: fetch the A record, compare its content with the
current address, and on inequality upload the same record object with only
the content field reassigned. The returned value is the uploaded record,
none when no put was issued. -/
def check_and_perform_ipv4_update (store : RecordStore) (current_ipv4 : String) :
    Except PyErr (Option DNSRecord) := do
  let a_record ← recordsGet store.aRecords
  if pyNe a_record.content (PyVal.str current_ipv4) then
    Except.ok (some { a_record with content := PyVal.str current_ipv4 })
  else
    Except.ok none

/-- flaredns.py line 73: the same for the AAAA record. The compared value
is kept as a PyVal because the call site hands over whatever the variable
current_ipv6 holds. -/
def check_and_perform_ipv6_update (store : RecordStore) (current_ipv6 : PyVal) :
    Except PyErr (Option DNSRecord) := do
  let aaaa_record ← recordsGet store.aaaaRecords
  if pyNe aaaa_record.content current_ipv6 then
    Except.ok (some { aaaa_record with content := current_ipv6 })
  else
    Except.ok none

/-- Lift the optional resolved string into the Python variable. -/
def pyOfOpt : Option String → PyVal
  | some s => PyVal.str s
  | none => PyVal.pyNone

/-- flaredns.py lines 150 to 157, the body of the IPv4 try block: resolve,
then update unless the resolution returned None. -/
def ipv4_branch (store : RecordStore) (fetch4 : Except ReqFailure String) :
    Except PyErr (Option DNSRecord) := do
  let resolved ← get_current_ipv4 fetch4
  match resolved with
  | some ip => check_and_perform_ipv4_update store ip
  | none => Except.ok none

/-- flaredns.py lines 159 to 173, the body of the IPv6 try block: resolve;
when --ipv6-host is configured, split it at the slash, reject empty
pieces, parse the host address and call replace_ipv6_host_part on the
variable current_ipv6 as it stands (a str or None) with the prefix length
still a string; finally update unless the variable holds None. -/
def ipv6_branch (ipv6_host : Option String) (store : RecordStore)
    (fetch6 : Except ReqFailure String) : Except PyErr (Option DNSRecord) := do
  let resolved ← get_current_ipv6 fetch6
  let current0 : PyVal := pyOfOpt resolved
  let current ←
    match ipv6_host with
    | some t =>
        let pieces := partitionSlash t
        if pieces.2.2 = "" ∨ pieces.1 = "" then
          Except.error PyErr.exceptionRaised
        else do
          let host_addr ← ipv6_from_string pieces.1
          replace_ipv6_host_part current0 (PyVal.addr6 host_addr) (PfxArg.ofStr pieces.2.2)
    | none => Except.ok current0
  if current = PyVal.pyNone then
    Except.ok none
  else
    check_and_perform_ipv6_update store current

/-- Outcome of one family inside one pass, after the per-family except
clause: the put that was issued, if any, and whether an exception was
caught and logged. -/
structure CycleResult where
  put : Option DNSRecord
  errorLogged : Bool
  deriving Repr, DecidableEq

/-- The per-family except clause of the update loop: an exception becomes
a logged error, a normal return carries the optional put. -/
def runFamily : Except PyErr (Option DNSRecord) → CycleResult
  | Except.ok p => ⟨p, false⟩
  | Except.error _ => ⟨none, true⟩

/-- The configuration bits of the update loop that one pass reads. -/
structure PassArgs where
  ipv4 : Bool
  ipv6 : Bool
  ipv6_host : Option String
  deriving Repr, DecidableEq

/-- flaredns.py lines 148 to 175, one reconciliation pass: the guarded
IPv4 block, then the guarded IPv6 block against the store as the first
block left it. -/
def reconcilePass (args : PassArgs) (store : RecordStore)
    (fetch4 fetch6 : Except ReqFailure String) : CycleResult × CycleResult :=
  let r4 := if args.ipv4 then runFamily (ipv4_branch store fetch4) else ⟨none, false⟩
  let store1 := { store with aRecords := putByIdOpt store.aRecords r4.put }
  let r6 :=
    if args.ipv6 then runFamily (ipv6_branch args.ipv6_host store1 fetch6)
    else ⟨none, false⟩
  (r4, r6)

/-- update-dyndns.py line 11: the legacy IPv4 updater fetches the record,
then resolves inside its own try that catches only ConnectionError (an
early return); on success it compares and conditionally puts. -/
def dyndns_check_and_perform_ipv4_update (store : RecordStore)
    (fetch4 : Except ReqFailure String) : Except PyErr (Option DNSRecord) := do
  let a_record ← recordsGet store.aRecords
  match fetch4 with
  | Except.error ReqFailure.connectionError => Except.ok none
  | Except.error ReqFailure.readTimeout => Except.error PyErr.readTimeout
  | Except.ok s =>
      if pyNe a_record.content (PyVal.str s) then
        Except.ok (some { a_record with content := PyVal.str s })
      else
        Except.ok none

/-- update-dyndns.py line 30: the legacy IPv6 updater sets the current
address to None on ConnectionError and guards the write with an explicit
is-not-None conjunct. -/
def dyndns_check_and_perform_ipv6_update (store : RecordStore)
    (fetch6 : Except ReqFailure String) : Except PyErr (Option DNSRecord) := do
  let aaaa_record ← recordsGet store.aaaaRecords
  match fetch6 with
  | Except.error ReqFailure.readTimeout => Except.error PyErr.readTimeout
  | Except.error ReqFailure.connectionError => Except.ok none
  | Except.ok s =>
      if pyNe aaaa_record.content (PyVal.str s) then
        Except.ok (some { aaaa_record with content := PyVal.str s })
      else
        Except.ok none

/-- update-dyndns.py lines 78 to 82, one pass of the legacy loop: no
per-family except clause exists there, so any exception of either updater
propagates out of the pass into the while loop. -/
def dyndns_pass (ipv4 ipv6 : Bool) (store : RecordStore)
    (fetch4 fetch6 : Except ReqFailure String) :
    Except PyErr (Option DNSRecord × Option DNSRecord) := do
  let p4 ← if ipv4 then dyndns_check_and_perform_ipv4_update store fetch4 else pure none
  let store1 := { store with aRecords := putByIdOpt store.aRecords p4 }
  let p6 ← if ipv6 then dyndns_check_and_perform_ipv6_update store1 fetch6 else pure none
  pure (p4, p6)

/-- The two scheduler states of the update loop. -/
inductive SchedState
  | running
  | stopped
  deriving Repr, DecidableEq

/-- Scheduler state paired with the provider state it acts on. -/
structure LoopState where
  sched : SchedState
  store : RecordStore
  deriving Repr, DecidableEq

/-- Apply the puts of one pass to the provider state. -/
def applyPass (store : RecordStore) (r4 r6 : CycleResult) : RecordStore :=
  { aRecords := putByIdOpt store.aRecords r4.put,
    aaaaRecords := putByIdOpt store.aaaaRecords r6.put }

/-- One iteration of the while loop of flaredns.py lines 148 to 181: in
the running state execute one reconciliation pass, then exit when the
interval is 0, otherwise sleep for interval seconds and stay running. The
two Nat components report how many passes ran and how long was slept. -/
def flaredns_loop_step (args : PassArgs) (interval : Nat)
    (fetch4 fetch6 : Except ReqFailure String) :
    LoopState → LoopState × Nat × Nat
  | ⟨SchedState.stopped, store⟩ => (⟨SchedState.stopped, store⟩, 0, 0)
  | ⟨SchedState.running, store⟩ =>
      let r := reconcilePass args store fetch4 fetch6
      let store1 := applyPass store r.1 r.2
      if interval = 0 then (⟨SchedState.stopped, store1⟩, 1, 0)
      else (⟨SchedState.running, store1⟩, 1, interval)

/-- Totals of a bounded observation of the loop. -/
structure RunStats where
  final : LoopState
  passes : Nat
  slept : Nat
  deriving Repr, DecidableEq

/-- Observe k iterations of the update loop, feeding each cycle its own
resolution outcomes from the streams. -/
def flaredns_loop_run (args : PassArgs) (interval : Nat)
    (fetches : Nat → Except ReqFailure String × Except ReqFailure String) :
    Nat → Nat → LoopState → RunStats
  | 0, _, st => ⟨st, 0, 0⟩
  | k + 1, i, st =>
      let step := flaredns_loop_step args interval (fetches i).1 (fetches i).2 st
      let rest := flaredns_loop_run args interval fetches k (i + 1) step.1
      ⟨rest.final, step.2.1 + rest.passes, step.2.2 + rest.slept⟩

/-! ### Concrete fixtures used by witnesses and counterexamples -/

/-- A concrete A record as the provider would return it. -/
def recA : DNSRecord :=
  ⟨"rec-a", "dyn.example.com", "A", PyVal.str "203.0.113.5", 300, false, [("zone", "z1")]⟩

/-- A concrete AAAA record as the provider would return it. -/
def recAAAA : DNSRecord :=
  ⟨"rec-aaaa", "dyn.example.com", "AAAA", PyVal.str "2001:db8::1", 300, true, [("zone", "z1")]⟩

/-- A provider state holding one record of each type. -/
def demoStore : RecordStore := ⟨[recA], [recAAAA]⟩

/-- A provider state with no A record, so the A query raises on [0]. -/
def noARecordStore : RecordStore := ⟨[], [recAAAA]⟩

/-! ### Arithmetic helper lemmas -/

lemma netmaskVal_lt {n : Nat} (hn : n ≤ 128) : netmaskVal n < 2 ^ 128 := by
  have h1 : (2 : Nat) ^ n - 1 < 2 ^ n := Nat.sub_lt (Nat.two_pow_pos n) (by norm_num)
  have h2 : 2 ^ (128 - n) * (2 ^ n - 1) < 2 ^ (128 - n) * 2 ^ n :=
    mul_lt_mul_of_pos_left h1 (Nat.two_pow_pos (128 - n))
  have h3 : (2 : Nat) ^ (128 - n) * 2 ^ n = 2 ^ 128 := by
    rw [← pow_add]
    congr 1
    omega
  rw [netmaskVal]
  omega

lemma hostmaskVal_lt (n : Nat) : hostmaskVal n < 2 ^ 128 := by
  have h1 : (2 : Nat) ^ (128 - n) ≤ 2 ^ 128 := Nat.pow_le_pow_right (by norm_num) (by omega)
  have h2 : (2 : Nat) ^ (128 - n) - 1 < 2 ^ (128 - n) :=
    Nat.sub_lt (Nat.two_pow_pos (128 - n)) (by norm_num)
  rw [hostmaskVal]
  omega

lemma replace_addr6_eq (a b : Nat) {n : Nat} (hn : n ≤ 128) :
    replace_ipv6_host_part (PyVal.addr6 a) (PyVal.addr6 b) (PfxArg.ofNat n)
      = Except.ok (PyVal.addr6 (mergeHostPure (a % 2 ^ 128) (b % 2 ^ 128) n)) := by
  have hW : (0 : Nat) < 2 ^ 128 := by norm_num
  have hm : netmaskVal n % 2 ^ 128 = netmaskVal n := Nat.mod_eq_of_lt (netmaskVal_lt hn)
  have hh : hostmaskVal n % 2 ^ 128 = hostmaskVal n := Nat.mod_eq_of_lt (hostmaskVal_lt n)
  have h1 : (a % 2 ^ 128 &&& netmaskVal n) % 2 ^ 128 = a % 2 ^ 128 &&& netmaskVal n :=
    Nat.mod_eq_of_lt (Nat.lt_of_le_of_lt Nat.and_le_left (Nat.mod_lt a hW))
  have h2 : (b % 2 ^ 128 &&& hostmaskVal n) % 2 ^ 128 = b % 2 ^ 128 &&& hostmaskVal n :=
    Nat.mod_eq_of_lt (Nat.lt_of_le_of_lt Nat.and_le_left (Nat.mod_lt b hW))
  simp only [replace_ipv6_host_part, parsePfxArg, bitwise_and_ipv6, bitwise_or_ipv6,
    packedInt, Bind.bind, Except.bind, hn, if_true, mergeHostPure]
  rw [hm, hh, h1, h2]

lemma testBit_hostmaskVal (n i : Nat) : (hostmaskVal n).testBit i = decide (i < 128 - n) := by
  simp [hostmaskVal]

lemma testBit_netmaskVal {n : Nat} (hn : n ≤ 128) {i : Nat} (hi : i < 128) :
    (netmaskVal n).testBit i = decide (128 - n ≤ i) := by
  rw [netmaskVal, Nat.testBit_mul_pow_two, Nat.testBit_two_pow_sub_one]
  by_cases h : 128 - n ≤ i
  · have h2 : i - (128 - n) < n := by omega
    simp [h, h2, ge_iff_le]
  · simp [h, ge_iff_le]

lemma mergeHostPure_testBit {net host n : Nat} (hn : n ≤ 128) {i : Nat} (hi : i < 128) :
    (mergeHostPure net host n).testBit i
      = if 128 - n ≤ i then net.testBit i else host.testBit i := by
  rw [mergeHostPure, Nat.testBit_lor, Nat.testBit_land, Nat.testBit_land,
    testBit_netmaskVal hn hi, testBit_hostmaskVal]
  by_cases h : 128 - n ≤ i
  · simp [h, Nat.not_lt.mpr h]
  · simp [h, Nat.lt_of_not_le h]

lemma mergeHostPure_zero {host : Nat} (hhost : host < 2 ^ 128) (net : Nat) :
    mergeHostPure net host 0 = host := by
  have h0 : netmaskVal 0 = 0 := by simp [netmaskVal]
  have h1 : hostmaskVal 0 = 2 ^ 128 - 1 := by simp [hostmaskVal]
  rw [mergeHostPure, h0, h1, Nat.and_zero, Nat.zero_or,
    Nat.and_pow_two_sub_one_eq_mod, Nat.mod_eq_of_lt hhost]

lemma mergeHostPure_full {net : Nat} (hnet : net < 2 ^ 128) (host : Nat) :
    mergeHostPure net host 128 = net := by
  have h0 : netmaskVal 128 = 2 ^ 128 - 1 := by simp [netmaskVal]
  have h1 : hostmaskVal 128 = 0 := by simp [hostmaskVal]
  rw [mergeHostPure, h0, h1, Nat.and_zero, Nat.or_zero,
    Nat.and_pow_two_sub_one_eq_mod, Nat.mod_eq_of_lt hnet]

/-! ### Claim theorems: address arithmetic -/

/-- Claim C5: for same-width 128-bit operands and any prefix length from 0
to 128, replace_ipv6_host_part succeeds and returns the value whose
leading prefix_len bits (bit positions 128 - n and above) come from the
network operand and whose remaining bits come from the host operand; at
prefix 0 it returns the host address unchanged and at prefix 128 the
network address unchanged. -/
theorem claim5_merge_host (net host n : Nat) (hnet : net < 2 ^ 128)
    (hhost : host < 2 ^ 128) (hn : n ≤ 128) :
    replace_ipv6_host_part (PyVal.addr6 net) (PyVal.addr6 host) (PfxArg.ofNat n)
      = Except.ok (PyVal.addr6 (mergeHostPure net host n))
    ∧ (∀ i, i < 128 → (mergeHostPure net host n).testBit i
        = if 128 - n ≤ i then net.testBit i else host.testBit i)
    ∧ (n = 0 → mergeHostPure net host n = host)
    ∧ (n = 128 → mergeHostPure net host n = net) := by
  refine ⟨?_, ?_, ?_, ?_⟩
  · rw [replace_addr6_eq net host hn, Nat.mod_eq_of_lt hnet, Nat.mod_eq_of_lt hhost]
  · intro i hi
    exact mergeHostPure_testBit hn hi
  · intro h
    subst h
    exact mergeHostPure_zero hhost net
  · intro h
    subst h
    exact mergeHostPure_full hnet host

/-- Witness for C5 at the spec scenario operands 2001:db8::1 and
::dead:cafe with prefix 64. -/
theorem claim5_witness :
    (0x20010db8 * 2 ^ 96 + 1 : Nat) < 2 ^ 128 ∧ (0xdeadcafe : Nat) < 2 ^ 128
    ∧ (64 : Nat) ≤ 128
    ∧ replace_ipv6_host_part (PyVal.addr6 (0x20010db8 * 2 ^ 96 + 1))
        (PyVal.addr6 0xdeadcafe) (PfxArg.ofNat 64)
      = Except.ok (PyVal.addr6 (mergeHostPure (0x20010db8 * 2 ^ 96 + 1) 0xdeadcafe 64)) :=
  ⟨by norm_num, by norm_num, by norm_num,
    (claim5_merge_host (0x20010db8 * 2 ^ 96 + 1) 0xdeadcafe 64
      (by norm_num) (by norm_num) (by norm_num)).1⟩

/-- Counterexample to C7: the bitwise helpers accept operands that differ
in width and family without any error. The AND of the 4-byte IPv4 operand
1.2.3.4 and a 16-byte all-ones operand returns a result instead of
failing. -/
theorem claim7_counterexample :
    bitwise_and_ipv6 (PyVal.addr4 0x01020304) (PyVal.addr6 (2 ^ 128 - 1))
      = Except.ok (PyVal.addr6 0x01020304) := by decide

/-- Claim C7 as amended: the bitwise helpers perform no family or width
validation, silently zero-extending a narrower operand; merge_host does
fail with ValueError when the prefix length exceeds 128; and under the
same-family, in-range preconditions no operation fails. -/
theorem claim7_amended :
    (∀ a b : Nat,
        bitwise_and_ipv6 (PyVal.addr4 a) (PyVal.addr6 b)
          = Except.ok (PyVal.addr6 (a % 2 ^ 32 &&& b % 2 ^ 128))
      ∧ bitwise_or_ipv6 (PyVal.addr4 a) (PyVal.addr6 b)
          = Except.ok (PyVal.addr6 (a % 2 ^ 32 ||| b % 2 ^ 128))
      ∧ bitwise_xor_ipv6 (PyVal.addr4 a) (PyVal.addr6 b)
          = Except.ok (PyVal.addr6 (a % 2 ^ 32 ^^^ b % 2 ^ 128)))
    ∧ (∀ (x y : PyVal) (n : Nat), 128 < n →
        replace_ipv6_host_part x y (PfxArg.ofNat n) = Except.error PyErr.valueError)
    ∧ (∀ a b n : Nat, n ≤ 128 →
        replace_ipv6_host_part (PyVal.addr6 a) (PyVal.addr6 b) (PfxArg.ofNat n)
          = Except.ok (PyVal.addr6 (mergeHostPure (a % 2 ^ 128) (b % 2 ^ 128) n))) := by
  refine ⟨?_, ?_, ?_⟩
  · intro a b
    refine ⟨?_, ?_, ?_⟩ <;>
      simp [bitwise_and_ipv6, bitwise_or_ipv6, bitwise_xor_ipv6, packedInt,
        Bind.bind, Except.bind]
  · intro x y n hn
    have h : ¬ n ≤ 128 := by omega
    simp [replace_ipv6_host_part, parsePfxArg, h, Bind.bind, Except.bind]
  · intro a b n hn
    exact replace_addr6_eq a b hn

/-- Witness for the amended C7 at concrete inputs. -/
theorem claim7_amended_witness :
    replace_ipv6_host_part (PyVal.addr6 0) (PyVal.addr6 0) (PfxArg.ofNat 129)
      = Except.error PyErr.valueError :=
  claim7_amended.2.1 (PyVal.addr6 0) (PyVal.addr6 0) 129 (by norm_num)

/-! ### Claim theorems: address source -/

/-- Counterexample to C6: a resolution failure that is a timeout does not
yield an absent result; it escapes the address source as an exception, in
both strategies. The echo strategy catches only ConnectionError, so a read
timeout propagates; the nameserver strategy catches only NXDOMAIN and
NoAnswer, so a resolution lifetime timeout propagates. -/
theorem claim6_counterexample :
    copydns_get_current_ipv4 DnsResolveOutcome.lifetimeTimeout
        = Except.error PyErr.dnsTimeout
    ∧ get_current_ipv4 (Except.error ReqFailure.readTimeout)
        = Except.error PyErr.readTimeout := by
  exact ⟨rfl, rfl⟩

/-- Claim C6 as amended: the anticipated resolution failures are contained
and yield an absent result — connection errors for the echo strategy,
NXDOMAIN and NoAnswer for the nameserver strategy, and an empty answer set
— while other failures, such as timeouts, escape the address source to the
caller. -/
theorem claim6_amended :
    (∀ s, get_current_ipv4 (Except.ok s) = Except.ok (some s)
        ∧ get_current_ipv6 (Except.ok s) = Except.ok (some s))
    ∧ get_current_ipv4 (Except.error ReqFailure.connectionError) = Except.ok none
    ∧ get_current_ipv6 (Except.error ReqFailure.connectionError) = Except.ok none
    ∧ copydns_get_current_ipv4 DnsResolveOutcome.nxdomain = Except.ok none
    ∧ copydns_get_current_ipv4 DnsResolveOutcome.noAnswer = Except.ok none
    ∧ copydns_get_current_ipv6 DnsResolveOutcome.nxdomain = Except.ok none
    ∧ copydns_get_current_ipv6 DnsResolveOutcome.noAnswer = Except.ok none
    ∧ copydns_get_current_ipv4 (DnsResolveOutcome.answers []) = Except.ok none
    ∧ (∀ a rest, copydns_get_current_ipv4 (DnsResolveOutcome.answers (a :: rest))
        = Except.ok (some a))
    ∧ get_current_ipv6 (Except.error ReqFailure.readTimeout)
        = Except.error PyErr.readTimeout
    ∧ copydns_get_current_ipv6 DnsResolveOutcome.lifetimeTimeout
        = Except.error PyErr.dnsTimeout
    ∧ copydns_get_current_ipv6 DnsResolveOutcome.noNameservers
        = Except.error PyErr.dnsNoNameservers := by
  refine ⟨fun s => ⟨rfl, rfl⟩, rfl, rfl, rfl, rfl, rfl, rfl, rfl, fun a rest => rfl,
    rfl, rfl, rfl⟩

/-- Witness for the amended C6 at a concrete resolved address. -/
theorem claim6_amended_witness :
    get_current_ipv4 (Except.ok "203.0.113.9") = Except.ok (some "203.0.113.9") :=
  (claim6_amended.1 "203.0.113.9").1

/-! ### Engine helper lemmas -/

lemma pyNe_false_iff (a b : PyVal) : pyNe a b = false ↔ a = b := by
  cases a <;> cases b <;> simp [pyNe]

lemma pyNe_true_iff (a b : PyVal) : pyNe a b = true ↔ a ≠ b := by
  cases a <;> cases b <;> simp [pyNe]

lemma pyNe_self (a : PyVal) : pyNe a a = false := (pyNe_false_iff a a).mpr rfl

lemma check4_eq {store : RecordStore} {r : DNSRecord} {rest : List DNSRecord}
    (h : store.aRecords = r :: rest) (ip : String) :
    check_and_perform_ipv4_update store ip
      = if r.content = PyVal.str ip then Except.ok none
        else Except.ok (some { r with content := PyVal.str ip }) := by
  by_cases hc : r.content = PyVal.str ip
  · have hne : pyNe r.content (PyVal.str ip) = false := (pyNe_false_iff _ _).mpr hc
    simp [check_and_perform_ipv4_update, h, recordsGet, Bind.bind, Except.bind, hne, hc,
      pyNe_self]
  · have hne : pyNe r.content (PyVal.str ip) = true := (pyNe_true_iff _ _).mpr hc
    simp [check_and_perform_ipv4_update, h, recordsGet, Bind.bind, Except.bind, hne, hc]

lemma check6_eq {store : RecordStore} {q : DNSRecord} {rest : List DNSRecord}
    (h : store.aaaaRecords = q :: rest) (v : PyVal) :
    check_and_perform_ipv6_update store v
      = if q.content = v then Except.ok none
        else Except.ok (some { q with content := v }) := by
  by_cases hc : q.content = v
  · have hne : pyNe q.content v = false := (pyNe_false_iff _ _).mpr hc
    simp [check_and_perform_ipv6_update, h, recordsGet, Bind.bind, Except.bind, hne, hc,
      pyNe_self]
  · have hne : pyNe q.content v = true := (pyNe_true_iff _ _).mpr hc
    simp [check_and_perform_ipv6_update, h, recordsGet, Bind.bind, Except.bind, hne, hc]

lemma putById_cons_self (r : DNSRecord) (rest : List DNSRecord) (v : PyVal) :
    putById (r :: rest) { r with content := v }
      = { r with content := v } :: putById rest { r with content := v } := by
  simp [putById]

lemma replace_nonaddr_error {v : PyVal}
    (hv : v = PyVal.pyNone ∨ ∃ s, v = PyVal.str s) (h2 : PyVal) (p : PfxArg) :
    ∃ e, replace_ipv6_host_part v h2 p = Except.error e := by
  have hpacked : packedInt v = Except.error PyErr.attributeError := by
    rcases hv with h | ⟨s, h⟩ <;> subst h <;> rfl
  cases hp : parsePfxArg p with
  | error e =>
      exact ⟨e, by simp [replace_ipv6_host_part, hp, Bind.bind, Except.bind]⟩
  | ok n =>
      exact ⟨PyErr.attributeError, by
        simp [replace_ipv6_host_part, hp, bitwise_and_ipv6, hpacked, Bind.bind, Except.bind]⟩

lemma ipv6_branch_transform_error (t : String) (store : RecordStore)
    (fetch6 : Except ReqFailure String) :
    ∃ e, ipv6_branch (some t) store fetch6 = Except.error e := by
  cases fetch6 with
  | error f =>
      cases f with
      | readTimeout =>
          exact ⟨PyErr.readTimeout, by
            simp [ipv6_branch, get_current_ipv6, Bind.bind, Except.bind]⟩
      | connectionError =>
          by_cases hp : (partitionSlash t).2.2 = "" ∨ (partitionSlash t).1 = ""
          · exact ⟨PyErr.exceptionRaised, by
              simp [ipv6_branch, get_current_ipv6, Bind.bind, Except.bind, pyOfOpt, hp]⟩
          · cases hf : ipv6_from_string (partitionSlash t).1 with
            | error e =>
                exact ⟨e, by
                  simp [ipv6_branch, get_current_ipv6, Bind.bind, Except.bind, pyOfOpt,
                    hp, hf]⟩
            | ok va =>
                obtain ⟨e, he⟩ := replace_nonaddr_error (v := PyVal.pyNone) (Or.inl rfl)
                  (PyVal.addr6 va) (PfxArg.ofStr (partitionSlash t).2.2)
                exact ⟨e, by
                  simp [ipv6_branch, get_current_ipv6, Bind.bind, Except.bind, pyOfOpt,
                    hp, hf, he]⟩
  | ok s =>
      by_cases hp : (partitionSlash t).2.2 = "" ∨ (partitionSlash t).1 = ""
      · exact ⟨PyErr.exceptionRaised, by
          simp [ipv6_branch, get_current_ipv6, Bind.bind, Except.bind, pyOfOpt, hp]⟩
      · cases hf : ipv6_from_string (partitionSlash t).1 with
        | error e =>
            exact ⟨e, by
              simp [ipv6_branch, get_current_ipv6, Bind.bind, Except.bind, pyOfOpt, hp, hf]⟩
        | ok va =>
            obtain ⟨e, he⟩ := replace_nonaddr_error (v := PyVal.str s) (Or.inr ⟨s, rfl⟩)
              (PyVal.addr6 va) (PfxArg.ofStr (partitionSlash t).2.2)
            exact ⟨e, by
              simp [ipv6_branch, get_current_ipv6, Bind.bind, Except.bind, pyOfOpt,
                hp, hf, he]⟩

/-! ### Claim theorems: reconciliation engine -/

/-- Counterexample to C1: with host transform ::dead:cafe/64 configured,
a stored AAAA record whose content is 2001:db8::1 and a resolved current
IPv6 of 2001:db8::1, the engine does not compute any effective desired
address from the record content — the transform call raises
AttributeError (the network operand passed is the resolved string, which
has no packed attribute) and the cycle ends with the error logged and no
put, instead of writing 2001:db8::dead:cafe. -/
theorem claim1_counterexample :
    ipv6_branch (some "::dead:cafe/64") ⟨[], [recAAAA]⟩ (Except.ok "2001:db8::1")
        = Except.error PyErr.attributeError
    ∧ runFamily (ipv6_branch (some "::dead:cafe/64") ⟨[], [recAAAA]⟩
        (Except.ok "2001:db8::1"))
        = ⟨none, true⟩ := by
  exact ⟨by decide, by decide⟩

/-- Claim C1 as amended: when the host transform ::dead:cafe/64 is
configured, the engine calls replace_ipv6_host_part with the network
operand taken from the freshly resolved current address, still in string
form — not from the record content — so the call raises AttributeError
for every store and every resolved string, and no effective desired
address is produced; the underlying merge itself, applied to packed
operands, maps network 2001:db8::1 and host ::dead:cafe at prefix 64 to
2001:db8::dead:cafe. -/
theorem claim1_amended (store : RecordStore) (s : String) :
    ipv6_branch (some "::dead:cafe/64") store (Except.ok s)
        = Except.error PyErr.attributeError
    ∧ replace_ipv6_host_part (PyVal.addr6 (0x20010db8 * 2 ^ 96 + 1))
        (PyVal.addr6 0xdeadcafe) (PfxArg.ofNat 64)
      = Except.ok (PyVal.addr6 (0x20010db8 * 2 ^ 96 + 0xdeadcafe)) := by
  constructor
  · have hpart : partitionSlash "::dead:cafe/64" = ("::dead:cafe", "/", "64") := by decide
    have hcond : ¬ ((partitionSlash "::dead:cafe/64").2.2 = ""
        ∨ (partitionSlash "::dead:cafe/64").1 = "") := by decide
    have hhost : ipv6_from_string (partitionSlash "::dead:cafe/64").1
        = Except.ok 0xdeadcafe := by decide
    have hpfx : parsePfxArg (PfxArg.ofStr (partitionSlash "::dead:cafe/64").2.2)
        = Except.ok 64 := by decide
    simp [ipv6_branch, get_current_ipv6, Bind.bind, Except.bind, pyOfOpt, hcond, hhost,
      replace_ipv6_host_part, hpfx, bitwise_and_ipv6, packedInt]
  · decide

/-- Witness instantiating the amended C1 at a concrete store and resolved
address. -/
theorem claim1_amended_witness :
    ipv6_branch (some "::dead:cafe/64") demoStore (Except.ok "2001:db8::5")
        = Except.error PyErr.attributeError :=
  (claim1_amended demoStore "2001:db8::5").1

/-- Claim C2: with a record present and a resolved address, the update
helper issues a put exactly when the stored content differs from the
desired address, the put carries the desired address as content, and
running the cycle again on the store the put produced performs no write —
for the A family over strings and for the AAAA family over the value the
loop passes in. -/
theorem claim2_diff_before_write (store : RecordStore) (r q : DNSRecord)
    (rest4 rest6 : List DNSRecord) (ip : String) (v : PyVal)
    (h4 : store.aRecords = r :: rest4) (h6 : store.aaaaRecords = q :: rest6) :
    (r.content ≠ PyVal.str ip →
      check_and_perform_ipv4_update store ip
        = Except.ok (some { r with content := PyVal.str ip }))
    ∧ (r.content = PyVal.str ip → check_and_perform_ipv4_update store ip = Except.ok none)
    ∧ (∀ act, check_and_perform_ipv4_update store ip = Except.ok act →
        check_and_perform_ipv4_update
          { store with aRecords := putByIdOpt store.aRecords act } ip = Except.ok none)
    ∧ (q.content ≠ v →
      check_and_perform_ipv6_update store v = Except.ok (some { q with content := v }))
    ∧ (q.content = v → check_and_perform_ipv6_update store v = Except.ok none)
    ∧ (∀ act, check_and_perform_ipv6_update store v = Except.ok act →
        check_and_perform_ipv6_update
          { store with aaaaRecords := putByIdOpt store.aaaaRecords act } v
          = Except.ok none) := by
  refine ⟨?_, ?_, ?_, ?_, ?_, ?_⟩
  · intro hne
    rw [check4_eq h4, if_neg hne]
  · intro heq
    rw [check4_eq h4, if_pos heq]
  · intro act hact
    rw [check4_eq h4] at hact
    by_cases hc : r.content = PyVal.str ip
    · rw [if_pos hc] at hact
      cases hact
      have h4b : ({ store with aRecords := putByIdOpt store.aRecords none }).aRecords
          = r :: rest4 := h4
      rw [check4_eq h4b, if_pos hc]
    · rw [if_neg hc] at hact
      cases hact
      have h4b : ({ store with
            aRecords := putByIdOpt store.aRecords (some { r with content := PyVal.str ip })
          }).aRecords
          = { r with content := PyVal.str ip }
              :: putById rest4 { r with content := PyVal.str ip } := by
        simp [putByIdOpt, h4, putById_cons_self]
      rw [check4_eq h4b, if_pos rfl]
  · intro hne
    rw [check6_eq h6, if_neg hne]
  · intro heq
    rw [check6_eq h6, if_pos heq]
  · intro act hact
    rw [check6_eq h6] at hact
    by_cases hc : q.content = v
    · rw [if_pos hc] at hact
      cases hact
      have h6b : ({ store with aaaaRecords := putByIdOpt store.aaaaRecords none }).aaaaRecords
          = q :: rest6 := h6
      rw [check6_eq h6b, if_pos hc]
    · rw [if_neg hc] at hact
      cases hact
      have h6b : ({ store with
            aaaaRecords := putByIdOpt store.aaaaRecords (some { q with content := v })
          }).aaaaRecords
          = { q with content := v } :: putById rest6 { q with content := v } := by
        simp [putByIdOpt, h6, putById_cons_self]
      rw [check6_eq h6b, if_pos rfl]

/-- Witness for C2 at the spec scenario: stored content 203.0.113.5,
resolved current address 203.0.113.9. -/
theorem claim2_witness :
    recA.content ≠ PyVal.str "203.0.113.9"
    ∧ check_and_perform_ipv4_update demoStore "203.0.113.9"
        = Except.ok (some { recA with content := PyVal.str "203.0.113.9" }) :=
  ⟨by decide,
    (claim2_diff_before_write demoStore recA recAAAA [] [] "203.0.113.9"
      (PyVal.str "x") rfl rfl).1 (by decide)⟩

/-- Claim C4: when the address source reports no current address for a
family (a caught connection error yielding None), no put is issued for
that family in that cycle — in the main program for both families,
whatever the transform configuration, and in the legacy IPv6 updater. -/
theorem claim4_absent_no_put (store : RecordStore) (host_cfg : Option String) :
    ipv4_branch store (Except.error ReqFailure.connectionError) = Except.ok none
    ∧ (runFamily (ipv6_branch host_cfg store
        (Except.error ReqFailure.connectionError))).put = none
    ∧ (∀ q rest, store.aaaaRecords = q :: rest →
        dyndns_check_and_perform_ipv6_update store
          (Except.error ReqFailure.connectionError) = Except.ok none) := by
  refine ⟨?_, ?_, ?_⟩
  · simp [ipv4_branch, get_current_ipv4, Bind.bind, Except.bind]
  · cases host_cfg with
    | none =>
        simp [ipv6_branch, get_current_ipv6, Bind.bind, Except.bind, pyOfOpt, runFamily]
    | some t =>
        obtain ⟨e, he⟩ := ipv6_branch_transform_error t store
          (Except.error ReqFailure.connectionError)
        rw [he]
        rfl
  · intro q rest h
    simp [dyndns_check_and_perform_ipv6_update, h, recordsGet, Bind.bind, Except.bind]

/-- Witness for C4 at a concrete store and both transform settings. -/
theorem claim4_witness :
    demoStore.aaaaRecords = recAAAA :: []
    ∧ dyndns_check_and_perform_ipv6_update demoStore
        (Except.error ReqFailure.connectionError) = Except.ok none :=
  ⟨rfl, (claim4_absent_no_put demoStore none).2.2 recAAAA [] rfl⟩

/-- Claim C9: whenever an update helper issues a put, the uploaded record
is the record the get returned with only the content field replaced by the
desired address; id, name, type, TTL, proxy status and all other fields
are passed back unchanged — for both families. -/
theorem claim9_read_modify_write (store : RecordStore) (r q : DNSRecord)
    (rest4 rest6 : List DNSRecord) (ip : String) (v : PyVal)
    (h4 : store.aRecords = r :: rest4) (h6 : store.aaaaRecords = q :: rest6) :
    (∀ p, check_and_perform_ipv4_update store ip = Except.ok (some p) →
      p.content = PyVal.str ip ∧ p.id = r.id ∧ p.name = r.name ∧ p.rtype = r.rtype
      ∧ p.ttl = r.ttl ∧ p.proxied = r.proxied ∧ p.extra = r.extra)
    ∧ (∀ p, check_and_perform_ipv6_update store v = Except.ok (some p) →
      p.content = v ∧ p.id = q.id ∧ p.name = q.name ∧ p.rtype = q.rtype
      ∧ p.ttl = q.ttl ∧ p.proxied = q.proxied ∧ p.extra = q.extra) := by
  constructor
  · intro p hp
    rw [check4_eq h4] at hp
    by_cases hc : r.content = PyVal.str ip
    · rw [if_pos hc] at hp
      cases hp
    · rw [if_neg hc] at hp
      cases hp
      exact ⟨rfl, rfl, rfl, rfl, rfl, rfl, rfl⟩
  · intro p hp
    rw [check6_eq h6] at hp
    by_cases hc : q.content = v
    · rw [if_pos hc] at hp
      cases hp
    · rw [if_neg hc] at hp
      cases hp
      exact ⟨rfl, rfl, rfl, rfl, rfl, rfl, rfl⟩

/-- Witness for C9 at a concrete store and update. -/
theorem claim9_witness :
    { recA with content := PyVal.str "203.0.113.9" }.ttl = recA.ttl
    ∧ { recA with content := PyVal.str "203.0.113.9" }.proxied = recA.proxied :=
  ⟨((claim9_read_modify_write demoStore recA recAAAA [] [] "203.0.113.9"
      (PyVal.str "x") rfl rfl).1
      { recA with content := PyVal.str "203.0.113.9" } (by decide)).2.2.2.2.1,
    ((claim9_read_modify_write demoStore recA recAAAA [] [] "203.0.113.9"
      (PyVal.str "x") rfl rfl).1
      { recA with content := PyVal.str "203.0.113.9" } (by decide)).2.2.2.2.2.1⟩

/-- Claim C10: whenever the --ipv6-host transform is configured, every
IPv6 cycle of the main program ends with an exception caught by the
per-family handler before any comparison or write: the transform receives
the resolved current address still in string form (or None), whose missing
packed attribute raises AttributeError, and malformed or unparsable
specifications raise before that; hence the AAAA record is never written
while the transform is configured. -/
theorem claim10_transform_always_fails (t : String) (store : RecordStore)
    (fetch6 : Except ReqFailure String) :
    runFamily (ipv6_branch (some t) store fetch6) = ⟨none, true⟩ := by
  obtain ⟨e, he⟩ := ipv6_branch_transform_error t store fetch6
  rw [he]
  rfl

/-- Witness for C10 at a concrete configuration, store and resolved
address. -/
theorem claim10_witness :
    runFamily (ipv6_branch (some "::dead:cafe/64") demoStore (Except.ok "2001:db8::7"))
      = ⟨none, true⟩ :=
  claim10_transform_always_fails "::dead:cafe/64" demoStore (Except.ok "2001:db8::7")

/-! ### Claim theorems: failure isolation and scheduler -/

/-- Counterexample to C3: in the legacy update-dyndns.py pass there is no
per-family handler, so when the record store get finds no A record the
IndexError propagates out of the pass — it is not caught and logged, and
the IPv6 cycle of the same pass never completes. -/
theorem claim3_counterexample :
    dyndns_pass true true noARecordStore (Except.ok "203.0.113.9")
        (Except.ok "2001:db8::1")
      = Except.error PyErr.indexError := by
  decide

/-- Claim C3 as amended: in the main program flaredns.py, with both
families enabled, an exception anywhere in the IPv4 cycle (including a
record-store get that finds no record) is caught and logged by the
per-family handler, the pass itself never propagates it, and the IPv6
cycle of the same pass runs exactly as it would alone; the legacy
update-dyndns.py loop lacks this isolation. -/
theorem claim3_amended (args : PassArgs) (store : RecordStore)
    (fetch4 fetch6 : Except ReqFailure String)
    (h4 : args.ipv4 = true) (h6 : args.ipv6 = true)
    (e : PyErr) (hfail : ipv4_branch store fetch4 = Except.error e) :
    (reconcilePass args store fetch4 fetch6).1 = ⟨none, true⟩
    ∧ (reconcilePass args store fetch4 fetch6).2
        = runFamily (ipv6_branch args.ipv6_host store fetch6) := by
  constructor
  · simp [reconcilePass, h4, hfail, runFamily]
  · simp [reconcilePass, h4, h6, hfail, runFamily, putByIdOpt]

/-- Witness for the amended C3: with no A record stored, the IPv4 cycle
fails with IndexError, the pass reports it as logged, and the IPv6 cycle
is the same as running it alone. -/
theorem claim3_witness :
    (reconcilePass ⟨true, true, none⟩ noARecordStore (Except.ok "203.0.113.9")
        (Except.ok "2001:db8::1")).1 = ⟨none, true⟩
    ∧ (reconcilePass ⟨true, true, none⟩ noARecordStore (Except.ok "203.0.113.9")
        (Except.ok "2001:db8::1")).2
      = runFamily (ipv6_branch none noARecordStore (Except.ok "2001:db8::1")) :=
  claim3_amended ⟨true, true, none⟩ noARecordStore (Except.ok "203.0.113.9")
    (Except.ok "2001:db8::1") rfl rfl PyErr.indexError (by decide)

lemma loop_run_stopped (args : PassArgs) (interval : Nat)
    (fetches : Nat → Except ReqFailure String × Except ReqFailure String) :
    ∀ (k i : Nat) (store : RecordStore),
      flaredns_loop_run args interval fetches k i ⟨SchedState.stopped, store⟩
        = ⟨⟨SchedState.stopped, store⟩, 0, 0⟩ := by
  intro k
  induction k with
  | zero =>
      intro i store
      rfl
  | succ j ih =>
      intro i store
      simp [flaredns_loop_run, flaredns_loop_step, ih]

lemma loop_step_running (args : PassArgs) (interval : Nat)
    (fetch4 fetch6 : Except ReqFailure String) (store : RecordStore) :
    flaredns_loop_step args interval fetch4 fetch6 ⟨SchedState.running, store⟩
      = if interval = 0
        then (⟨SchedState.stopped,
            applyPass store (reconcilePass args store fetch4 fetch6).1
              (reconcilePass args store fetch4 fetch6).2⟩, 1, 0)
        else (⟨SchedState.running,
            applyPass store (reconcilePass args store fetch4 fetch6).1
              (reconcilePass args store fetch4 fetch6).2⟩, 1, interval) := rfl

/-- Claim C8: from the running state, when the configured interval is 0
the loop executes exactly one reconciliation pass, sleeps for 0 seconds
and reaches the stopped state, where it stays for any further observation;
when the interval is non-zero, every observation of k iterations executes
exactly k passes, sleeps interval seconds after each, and leaves the loop
running — there is no other exit in the model of the loop body. -/
theorem claim8_scheduler (args : PassArgs)
    (fetches : Nat → Except ReqFailure String × Except ReqFailure String) :
    (∀ (k i : Nat) (store : RecordStore), 1 ≤ k →
        (flaredns_loop_run args 0 fetches k i ⟨SchedState.running, store⟩).passes = 1
        ∧ (flaredns_loop_run args 0 fetches k i ⟨SchedState.running, store⟩).slept = 0
        ∧ (flaredns_loop_run args 0 fetches k i
            ⟨SchedState.running, store⟩).final.sched = SchedState.stopped)
    ∧ (∀ interval : Nat, interval ≠ 0 → ∀ (k i : Nat) (store : RecordStore),
        (flaredns_loop_run args interval fetches k i
            ⟨SchedState.running, store⟩).passes = k
        ∧ (flaredns_loop_run args interval fetches k i
            ⟨SchedState.running, store⟩).slept = interval * k
        ∧ (flaredns_loop_run args interval fetches k i
            ⟨SchedState.running, store⟩).final.sched = SchedState.running) := by
  constructor
  · intro k i store hk
    cases k with
    | zero => exact absurd hk (by omega)
    | succ j =>
        have hstep := loop_step_running args 0 (fetches i).1 (fetches i).2 store
        rw [if_pos rfl] at hstep
        have hstop := loop_run_stopped args 0 fetches j (i + 1)
          (applyPass store (reconcilePass args store (fetches i).1 (fetches i).2).1
            (reconcilePass args store (fetches i).1 (fetches i).2).2)
        refine ⟨?_, ?_, ?_⟩ <;> simp [flaredns_loop_run, hstep, hstop]
  · intro interval hne k
    induction k with
    | zero =>
        intro i store
        exact ⟨rfl, by simp [flaredns_loop_run], rfl⟩
    | succ j ih =>
        intro i store
        obtain ⟨ihp, ihs, ihf⟩ := ih (i + 1)
          (applyPass store (reconcilePass args store (fetches i).1 (fetches i).2).1
            (reconcilePass args store (fetches i).1 (fetches i).2).2)
        have hstep := loop_step_running args interval (fetches i).1 (fetches i).2 store
        rw [if_neg hne] at hstep
        refine ⟨?_, ?_, ?_⟩
        · simp only [flaredns_loop_run, hstep]
          rw [ihp]
          omega
        · simp only [flaredns_loop_run, hstep]
          rw [ihs, Nat.mul_succ]
          exact Nat.add_comm interval (interval * j)
        · simp only [flaredns_loop_run, hstep]
          exact ihf

/-- Witness for C8: one concrete run-once observation and one concrete
periodic observation. -/
theorem claim8_witness :
    (flaredns_loop_run ⟨true, false, none⟩ 0
        (fun _ => (Except.ok "203.0.113.9", Except.ok "2001:db8::1"))
        1 0 ⟨SchedState.running, demoStore⟩).passes = 1
    ∧ (flaredns_loop_run ⟨true, false, none⟩ 5
        (fun _ => (Except.ok "203.0.113.9", Except.ok "2001:db8::1"))
        2 0 ⟨SchedState.running, demoStore⟩).slept = 5 * 2 :=
  ⟨((claim8_scheduler ⟨true, false, none⟩
      (fun _ => (Except.ok "203.0.113.9", Except.ok "2001:db8::1"))).1
      1 0 demoStore (by omega)).1,
    ((claim8_scheduler ⟨true, false, none⟩
      (fun _ => (Except.ok "203.0.113.9", Except.ok "2001:db8::1"))).2
      5 (by omega) 2 0 demoStore).2.1⟩

end FlareDNS
